import Mathlib

/-
Shallow embedding of the metrics/error recording and retention engine of the
Performance Monitoring API (source file app.py).

Modelling conventions:
- Python floats are modelled as rationals; machine timestamps, the values
  returned by successive time.time() and datetime.now().isoformat() calls, and
  the outcomes of successive psutil reads are supplied by an explicit
  environment of streams, indexed by how many such calls happened so far.
- A Python dict returned by get_system_metrics is modelled as
  Option SystemSnapshot: none is the empty dict returned on sampler failure,
  and each field access via dict.get(field, 0) is a total getter returning 0
  on none.
- The two sqlite tables are modelled as lists in insertion order (the
  created_at column is a monotone insertion stamp, so ORDER BY created_at DESC
  is list reversal and the eviction query keeps a suffix of the list).
- The mutable thresholds dict is an association list with first-match lookup
  and in-place update, mirroring Python dict semantics.
-/

namespace PerfMon

set_option autoImplicit false

/-- Host utilisation snapshot assembled by get_system_metrics on success:
cpu, memory and disk percentages plus the cumulative network byte counters
from the nested network_io dict. -/
structure SystemSnapshot where
  cpu_usage : ℚ
  memory_usage : ℚ
  disk_usage : ℚ
  bytes_sent : ℤ
  bytes_recv : ℤ
deriving DecidableEq

/-- Outcome of one underlying psutil read inside get_system_metrics: either a
snapshot of host utilisation or a raised exception carrying a message. -/
inductive SampleOutcome where
  | ok (s : SystemSnapshot)
  | fail (e : String)

/-- Row of the metrics table / the PerformanceMetrics dataclass.  The
autoincrement id is assigned by the store; rows are listed in insertion
order, so the id is the position and is not repeated here. -/
structure PerformanceMetrics where
  timestamp : String
  cpu_usage : ℚ
  memory_usage : ℚ
  disk_usage : ℚ
  network_sent : ℤ
  network_recv : ℤ
  execution_time : ℚ
  function_name : String
  status : String
  api_key : Option String
deriving DecidableEq

/-- Row of the errors table / the ErrorLog dataclass. -/
structure ErrorLog where
  timestamp : String
  level : String
  error_type : String
  message : String
  traceback_info : String
  function_name : String
  cpu_impact : ℚ
  memory_impact : ℚ
  severity : ℚ
  explanation : String
  suggested_fix : String
  api_key : Option String
deriving DecidableEq

/-- State of the DatabaseManager: the two tables, each kept in insertion
order (oldest first), which is the order of the monotone created_at stamp. -/
structure DBState where
  metrics : List PerformanceMetrics
  errors : List ErrorLog
deriving DecidableEq

/-- DatabaseManager.save_metric: INSERT one row into metrics. -/
def save_metric (db : DBState) (m : PerformanceMetrics) : DBState :=
  { db with metrics := db.metrics ++ [m] }

/-- DatabaseManager.save_error: INSERT one row into errors. -/
def save_error (db : DBState) (e : ErrorLog) : DBState :=
  { db with errors := db.errors ++ [e] }

/-- Python str.upper(): uppercase every character of the string (for the
ASCII category and level codes handled here this is exactly a character-wise
Char.toUpper map). -/
def pyUpper (s : String) : String :=
  ⟨s.data.map Char.toUpper⟩

/-- DatabaseManager.get_errors: SELECT with optional level filter (the level
argument is uppercased before comparison; a None or empty level is falsy in
Python and skips the filter), optional api_key filter, ORDER BY created_at
DESC, LIMIT. -/
def get_errors (db : DBState) (limit : ℕ) (level : Option String)
    (api_key : Option String) : List ErrorLog :=
  let rows := db.errors
  let rows := match level with
    | some l => if l = "" then rows else rows.filter (fun e => e.level == pyUpper l)
    | none => rows
  let rows := match api_key with
    | some k => if k = "" then rows else rows.filter (fun e => e.api_key == some k)
    | none => rows
  (rows.reverse).take limit

/-- DatabaseManager._cleanup_old_metrics: DELETE every metrics row whose id is
not among the maxRows most recently inserted (SELECT id ORDER BY created_at
DESC LIMIT maxRows), i.e. keep the final maxRows-row suffix of the table.
The row cap Config.MAX_HISTORY_RECORDS is passed as the maxRows argument. -/
def cleanup_old_metrics (maxRows : ℕ) (db : DBState) : DBState :=
  { db with metrics := db.metrics.drop (db.metrics.length - maxRows) }

/-- PerformanceMonitor._get_system_metrics: wraps the psutil reads in
try/except; on success builds the metrics dict, on any exception logs and
returns the empty dict (modelled as none), never re-raising. -/
def get_system_metrics : SampleOutcome → Option SystemSnapshot
  | SampleOutcome.ok s => some s
  | SampleOutcome.fail _ => none

/-- Reading cpu_usage from the metrics dict via metrics.get(field, 0). -/
def get_cpu_usage : Option SystemSnapshot → ℚ
  | some s => s.cpu_usage
  | none => 0

/-- Reading memory_usage from the metrics dict via metrics.get(field, 0). -/
def get_memory_usage : Option SystemSnapshot → ℚ
  | some s => s.memory_usage
  | none => 0

/-- Reading disk_usage from the metrics dict via metrics.get(field, 0). -/
def get_disk_usage : Option SystemSnapshot → ℚ
  | some s => s.disk_usage
  | none => 0

/-- Reading bytes_sent via metrics.get(network_io, empty dict).get(bytes_sent, 0). -/
def get_bytes_sent : Option SystemSnapshot → ℤ
  | some s => s.bytes_sent
  | none => 0

/-- Reading bytes_recv via metrics.get(network_io, empty dict).get(bytes_recv, 0). -/
def get_bytes_recv : Option SystemSnapshot → ℤ
  | some s => s.bytes_recv
  | none => 0

/-- Fixed explanation table of PerformanceMonitor._generate_error_explanation. -/
def explanationsList : List (String × String) :=
  [("HIGH_CPU_USAGE", "CPU usage has exceeded the threshold, indicating intensive processing that may slow down the system."),
   ("HIGH_MEMORY_USAGE", "Memory usage is critically high, which can lead to system instability and slower performance."),
   ("DISK_SPACE_LOW", "Available disk space is running low, which can cause write operations to fail."),
   ("SLOW_RESPONSE", "Function execution time exceeded acceptable limits, indicating performance bottleneck."),
   ("NETWORK_ERROR", "Network connectivity issue detected, which may affect external API calls or data transfers."),
   ("DATABASE_ERROR", "Database operation failed, potentially due to connection issues or query problems."),
   ("AUTHENTICATION_ERROR", "Authentication failed, indicating potential security breach or expired credentials."),
   ("RATE_LIMIT_EXCEEDED", "Too many requests received in a short time period.")]

/-- Fixed remediation table of PerformanceMonitor._generate_suggested_fix.
Note the source table has no DATABASE_ERROR entry. -/
def fixesList : List (String × String) :=
  [("HIGH_CPU_USAGE", "Consider optimizing algorithms, reducing computational complexity, or scaling horizontally."),
   ("HIGH_MEMORY_USAGE", "Review memory allocation, implement garbage collection, or increase available RAM."),
   ("DISK_SPACE_LOW", "Clean up temporary files, archive old logs, or expand storage capacity."),
   ("SLOW_RESPONSE", "Optimize database queries, implement caching, or consider asynchronous processing."),
   ("NETWORK_ERROR", "Check network connectivity, implement retry logic, or use circuit breaker pattern."),
   ("AUTHENTICATION_ERROR", "Verify API key is valid and has not expired."),
   ("RATE_LIMIT_EXCEEDED", "Reduce request frequency or upgrade to a higher rate limit tier.")]

/-- First-match association lookup, the semantics of a Python dict read
(keys in these tables are unique). -/
def dictLookup {α : Type} (d : List (String × α)) (k : String) : Option α :=
  match d with
  | [] => none
  | (k1, v) :: rest => if k1 = k then some v else dictLookup rest k

/-- PerformanceMonitor._generate_error_explanation: explanations.get with the
templated fallback string for unknown categories. -/
def generate_error_explanation (error_type message : String) : String :=
  (dictLookup explanationsList error_type).getD
    ("An error of type \x27" ++ error_type ++ "\x27 occurred: " ++ message)

/-- PerformanceMonitor._generate_suggested_fix: fixes.get with the templated
fallback string for unknown categories. -/
def generate_suggested_fix (error_type message : String) : String :=
  (dictLookup fixesList error_type).getD
    ("Review the error details and implement appropriate error handling for \x27" ++ error_type ++ "\x27.")

/-- Python dict assignment d[k] = v on an association list: replace the value
at the first occurrence of k, or append the pair when k is absent. -/
def dictSet {α : Type} (d : List (String × α)) (k : String) (v : α) :
    List (String × α) :=
  match d with
  | [] => [(k, v)]
  | (k1, v1) :: rest =>
      if k1 = k then (k, v) :: rest else (k1, v1) :: dictSet rest k v

/-- Python dict.update(new): assign every key/value pair of new in order. -/
def dictUpdate {α : Type} (d new : List (String × α)) : List (String × α) :=
  new.foldl (fun acc kv => dictSet acc kv.1 kv.2) d

/-- Reading one threshold, such as thresholds[cpu].  Keys are never removed by
updates (dict.update only assigns), so in the running system the four initial
keys are always present; the total model defaults to 0 on an absent key. -/
def thresholdVal (t : List (String × ℚ)) (k : String) : ℚ :=
  (dictLookup t k).getD 0

/-- Initial thresholds dict built in PerformanceMonitor.__init__. -/
def defaultThresholds : List (String × ℚ) :=
  [("cpu", 80), ("memory", 80), ("disk", 90), ("response_time", 5)]

/-- POST branch of the manage_thresholds route:
monitor.thresholds.update(request.json). -/
def manage_thresholds_post (thresholds new : List (String × ℚ)) :
    List (String × ℚ) :=
  dictUpdate thresholds new

/-- Rendering of a number under a two-decimal format spec inside the breach
message f-strings (round to hundredths, print with two decimals). -/
def format2 (q : ℚ) : String :=
  let n : ℤ := round (q * 100)
  let sign := if n < 0 then "-" else ""
  let m := n.natAbs
  sign ++ toString (m / 100) ++ "." ++
    (if m % 100 < 10 then "0" else "") ++ toString (m % 100)

/-- Environment of the nondeterministic inputs consumed by the engine: the
outcome of the i-th psutil read, the value of the i-th time.time() call and
the string of the i-th datetime.now().isoformat() call. -/
structure Env where
  samples : ℕ → SampleOutcome
  times : ℕ → ℚ
  stamps : ℕ → String

/-- Process state threaded through the engine: the database, the shared
mutable thresholds dict, and how many sampler / clock / timestamp calls have
happened so far (the cursors into the Env streams). -/
structure MonState where
  db : DBState
  thresholds : List (String × ℚ)
  sIdx : ℕ
  tIdx : ℕ
  nIdx : ℕ

/-- Derived impact scores returned by _calculate_performance_impact. -/
structure Impact where
  cpu_impact : ℚ
  memory_impact : ℚ
  overall_severity : ℚ
deriving DecidableEq

/-- PerformanceMonitor._calculate_performance_impact applied to the fresh
metrics dict it samples: cpu impact is the cpu percentage above 20,
memory impact is the memory percentage above 30, both floored at 0, and the
overall severity is the usage sum over 20 capped at 10. -/
def calculate_performance_impact (m : Option SystemSnapshot) : Impact :=
  { cpu_impact := max 0 (get_cpu_usage m - 20)
    memory_impact := max 0 (get_memory_usage m - 30)
    overall_severity := min 10 ((get_cpu_usage m + get_memory_usage m) / 20) }

/-- Traceback text captured inside log_error: traceback.format_exc() when an
exception is being handled (its text is the optional argument), otherwise the
sentinel string. -/
def tracebackText : Option String → String
  | some t => t
  | none => "No traceback available"

/-- Error row built by PerformanceMonitor.log_error from the current state:
it takes a fresh sample (the one at the current sampler cursor) for the
derived impact fields and the current timestamp for the row. -/
def mk_error_log (env : Env) (error_type message function_name level : String)
    (api_key : Option String) (excInfo : Option String) (st : MonState) :
    ErrorLog :=
  let impact := calculate_performance_impact (get_system_metrics (env.samples st.sIdx))
  { timestamp := env.stamps st.nIdx
    level := level
    error_type := error_type
    message := message
    traceback_info := tracebackText excInfo
    function_name := function_name
    cpu_impact := impact.cpu_impact
    memory_impact := impact.memory_impact
    severity := impact.overall_severity
    explanation := generate_error_explanation error_type message
    suggested_fix := generate_suggested_fix error_type message
    api_key := api_key }

/-- PerformanceMonitor.log_error: look up explanation and fix, take one fresh
sample for _calculate_performance_impact, one timestamp, and INSERT exactly
one error row. -/
def log_error (env : Env) (error_type message function_name level : String)
    (api_key : Option String) (excInfo : Option String) (st : MonState) :
    MonState :=
  { st with
    db := save_error st.db
      (mk_error_log env error_type message function_name level api_key excInfo st)
    sIdx := st.sIdx + 1
    nIdx := st.nIdx + 1 }

/-- Result of the wrapped body inside the monitor_function context manager:
normal completion, or an exception carrying its type name (before
uppercasing) and its message. -/
inductive BodyOutcome where
  | ok
  | exc (kind msg : String)
deriving DecidableEq

/-- Tail of the finally block of monitor_function after the cpu-breach check
has been passed without raising: the response-time check (its message uses
the local execution_time, no dict index), then the metric row built from
defaulted end_metrics reads, then the return or re-raise of the body
outcome. -/
def monitor_finish (env : Env) (function_name : String)
    (api_key : Option String) (body : BodyOutcome) (excInfo : Option String)
    (execution_time : ℚ) (end_metrics : Option SystemSnapshot)
    (st : MonState) : BodyOutcome × MonState :=
  let st7 : MonState :=
    if thresholdVal st.thresholds "response_time" < execution_time then
      log_error env "SLOW_RESPONSE"
        ("Execution time: " ++ format2 execution_time ++ "s exceeds threshold")
        function_name "WARNING" api_key excInfo st
    else st
  let metric : PerformanceMetrics :=
    { timestamp := env.stamps st7.nIdx
      cpu_usage := get_cpu_usage end_metrics
      memory_usage := get_memory_usage end_metrics
      disk_usage := get_disk_usage end_metrics
      network_sent := get_bytes_sent end_metrics
      network_recv := get_bytes_recv end_metrics
      execution_time := execution_time
      function_name := function_name
      status := "completed"
      api_key := api_key }
  let st8 : MonState := { st7 with nIdx := st7.nIdx + 1 }
  (body, { st8 with db := save_metric st8.db metric })

/-- PerformanceMonitor.monitor_function: the context manager records
start time and a start sample, runs the body; on exception it logs an ERROR
row named after the uppercased exception type and re-raises; the finally
block records end time and an end sample and checks the cpu threshold on the
defaulted read end_metrics.get(cpu_usage, 0).  The breach message f-string,
however, indexes end_metrics[cpu_usage] directly: when the sample dict is
empty (sampler failure) and the check nevertheless passed (only possible
with a negative cpu threshold), that index raises KeyError inside the
finally block, so no warning row and no metric row are written and the
KeyError replaces the body outcome seen by the caller.  Otherwise the
WARNING row is logged on a breach and the rest of the finally block runs
(monitor_finish).  The returned first component is the outcome propagated
to the caller. -/
def monitor_function (env : Env) (function_name : String)
    (api_key : Option String) (body : BodyOutcome) (st : MonState) :
    BodyOutcome × MonState :=
  let start_time := env.times st.tIdx
  let st1 : MonState := { st with tIdx := st.tIdx + 1 }
  let st2 : MonState := { st1 with sIdx := st1.sIdx + 1 }
  let excInfo : Option String := match body with
    | BodyOutcome.ok => none
    | BodyOutcome.exc _ msg => some msg
  let st3 : MonState := match body with
    | BodyOutcome.ok => st2
    | BodyOutcome.exc kind msg =>
        log_error env (pyUpper kind) msg function_name "ERROR" api_key (some msg) st2
  let end_time := env.times st3.tIdx
  let st4 : MonState := { st3 with tIdx := st3.tIdx + 1 }
  let execution_time := end_time - start_time
  let end_metrics := get_system_metrics (env.samples st4.sIdx)
  let st5 : MonState := { st4 with sIdx := st4.sIdx + 1 }
  if thresholdVal st5.thresholds "cpu" < get_cpu_usage end_metrics then
    match end_metrics with
    | none =>
        (BodyOutcome.exc "KeyError" "\x27cpu_usage\x27", st5)
    | some s =>
        monitor_finish env function_name api_key body excInfo execution_time
          end_metrics
          (log_error env "HIGH_CPU_USAGE"
            ("CPU usage: " ++ format2 s.cpu_usage ++ "% exceeds threshold")
            function_name "WARNING" api_key excInfo st5)
  else
    monitor_finish env function_name api_key body excInfo execution_time
      end_metrics st5

/-- One successful pass of the background_monitoring loop body: sample, log a
WARNING on a cpu or memory threshold breach (operation name
background_monitor, no api key), then run the periodic cleanup with the
configured row cap. -/
def background_cycle (env : Env) (maxRecords : ℕ) (st : MonState) : MonState :=
  let m := get_system_metrics (env.samples st.sIdx)
  let st1 : MonState := { st with sIdx := st.sIdx + 1 }
  let st2 : MonState :=
    if thresholdVal st1.thresholds "cpu" < get_cpu_usage m then
      log_error env "HIGH_CPU_USAGE"
        ("System CPU: " ++ format2 (get_cpu_usage m) ++ "%")
        "background_monitor" "WARNING" none none st1
    else st1
  let st3 : MonState :=
    if thresholdVal st2.thresholds "memory" < get_memory_usage m then
      log_error env "HIGH_MEMORY_USAGE"
        ("System Memory: " ++ format2 (get_memory_usage m) ++ "%")
        "background_monitor" "WARNING" none none st2
    else st2
  { st3 with db := cleanup_old_metrics maxRecords st3.db }

/-- One transition of the whole system: an instrumented operation completes,
a background cycle runs, a failing background pass only logs its error, a
threshold update is applied, or a manual error is logged (the test-error
route). -/
inductive SysStep (maxRecords : ℕ) : MonState → MonState → Prop where
  | instrument (env : Env) (fn : String) (key : Option String)
      (body : BodyOutcome) (st : MonState) :
      SysStep maxRecords st (monitor_function env fn key body st).2
  | background (env : Env) (st : MonState) :
      SysStep maxRecords st (background_cycle env maxRecords st)
  | backgroundFailure (env : Env) (msg : String) (st : MonState) :
      SysStep maxRecords st
        (log_error env "BACKGROUND_MONITOR_ERROR" msg "background_monitoring"
          "ERROR" none none st)
  | setThresholds (new : List (String × ℚ)) (st : MonState) :
      SysStep maxRecords st { st with thresholds := dictUpdate st.thresholds new }
  | manualError (env : Env) (ety msg fn lvl : String) (key : Option String)
      (st : MonState) :
      SysStep maxRecords st (log_error env ety msg fn lvl key none st)

/-- States reachable from a given state by any interleaving of system
transitions. -/
def Reachable (maxRecords : ℕ) : MonState → MonState → Prop :=
  Relation.ReflTransGen (SysStep maxRecords)

/-- Initial process state: empty database, default thresholds, no calls
consumed yet. -/
def initState : MonState :=
  { db := { metrics := [], errors := [] }
    thresholds := defaultThresholds
    sIdx := 0
    tIdx := 0
    nIdx := 0 }

/-- Environment whose sampler always fails (every psutil read raises), with a
constant clock and timestamp stream. -/
def failEnv (e : String) (times : ℕ → ℚ) (stamps : ℕ → String) : Env :=
  { samples := fun _ => SampleOutcome.fail e
    times := times
    stamps := stamps }

/-- Benign concrete environment used to drive concrete executions: the
sampler always fails (so every read of the empty dict yields 0 and no
threshold is breached), the clock is constant and stamps are empty. -/
def env0 : Env := failEnv "permission denied" (fun _ => 0) (fun _ => "")

/-- Running the same instrumented operation n times from a given state. -/
def iterInstr (env : Env) : ℕ → MonState → MonState
  | 0, st => st
  | n + 1, st => iterInstr env n (monitor_function env "f" none BodyOutcome.ok st).2

/-- Thresholds dict after an authenticated POST /api/thresholds carrying the
body cpu = -5: dict.update merges the pair into the defaults. -/
def negThresholds : List (String × ℚ) :=
  dictUpdate defaultThresholds [("cpu", -5)]

/-- Process state after the single threshold-update request above: same
empty database and cursors as the initial state, cpu threshold -5. -/
def stNeg : MonState :=
  { initState with thresholds := negThresholds }

/-- Level-filter stage of DatabaseManager.get_errors (a None or empty level
is falsy and skips the filter; otherwise the uppercased level is compared). -/
def optLevelFilter (level : Option String) (rows : List ErrorLog) :
    List ErrorLog :=
  match level with
  | some l => if l = "" then rows else rows.filter (fun e => e.level == pyUpper l)
  | none => rows

/-- Owner-filter stage of DatabaseManager.get_errors (a None or empty key is
falsy and skips the filter). -/
def optKeyFilter (api_key : Option String) (rows : List ErrorLog) :
    List ErrorLog :=
  match api_key with
  | some k => if k = "" then rows else rows.filter (fun e => e.api_key == some k)
  | none => rows

/-- Error categories the specification lists as having fixed catalog
entries. -/
def standardCategories : List String :=
  ["HIGH_CPU_USAGE", "HIGH_MEMORY_USAGE", "DISK_SPACE_LOW", "SLOW_RESPONSE",
   "NETWORK_ERROR", "DATABASE_ERROR", "AUTHENTICATION_ERROR",
   "RATE_LIMIT_EXCEEDED"]

/-- Minimal concrete error row used to build concrete store states. -/
def sampleError (lvl ts : String) : ErrorLog :=
  { timestamp := ts
    level := lvl
    error_type := "X"
    message := ""
    traceback_info := ""
    function_name := ""
    cpu_impact := 0
    memory_impact := 0
    severity := 0
    explanation := ""
    suggested_fix := ""
    api_key := none }

/-- Concrete store holding, in insertion order, 3 WARNING rows and 2 ERROR
rows with distinct timestamps. -/
def db0 : DBState :=
  { metrics := []
    errors := [sampleError "WARNING" "t1", sampleError "ERROR" "t2",
      sampleError "WARNING" "t3", sampleError "ERROR" "t4",
      sampleError "WARNING" "t5"] }

lemma monitor_env0_step (st : MonState)
    (hthr : st.thresholds = defaultThresholds) :
    (monitor_function env0 "f" none BodyOutcome.ok st).2.db.metrics.length
        = st.db.metrics.length + 1 ∧
    (monitor_function env0 "f" none BodyOutcome.ok st).2.thresholds
        = defaultThresholds := by
  have h80 : ¬(thresholdVal defaultThresholds "cpu" < (0 : ℚ)) := by decide
  have h5 : ¬(thresholdVal defaultThresholds "response_time" < (0 : ℚ)) := by
    decide
  refine ⟨?_, ?_⟩ <;>
    simp [monitor_function, monitor_finish, log_error, save_error, save_metric,
      env0, failEnv, get_system_metrics, get_cpu_usage, hthr, h80, h5]

/-- C1 (code bug): at the reachable state with cpu threshold -5 (one
authenticated thresholds POST merging cpu = -5) and a failing sampler, an
invocation of the wrapper persists no metric row at all and the caller
receives KeyError: the breach guard passes on the defaulted read (0 > -5)
but the breach message f-string indexes the empty sample dict directly and
raises inside the finally block.  The claim says exactly one completed
MetricRecord is persisted for every invocation. -/
theorem metric_lost_on_breach_crash :
    Reachable 10000 initState stNeg ∧
    (monitor_function env0 "f" none BodyOutcome.ok stNeg).1
        = BodyOutcome.exc "KeyError" "\x27cpu_usage\x27" ∧
    (monitor_function env0 "f" none BodyOutcome.ok stNeg).2.db.metrics = [] := by
  refine ⟨Relation.ReflTransGen.single ?_, ?_, ?_⟩
  · exact SysStep.setThresholds [("cpu", -5)] initState
  · decide
  · decide

/-- C2 (code bug): at the same crash state a raising body does not have its
failure re-raised to the caller: the KeyError from the breach message
replaces it, and no metric row is persisted for the invocation; the ERROR
record from the except handler is the only row written (it is persisted
before the finally block crashes). -/
theorem reraise_lost_on_breach_crash :
    (monitor_function env0 "f" none (BodyOutcome.exc "ValueError" "boom") stNeg).1
        = BodyOutcome.exc "KeyError" "\x27cpu_usage\x27" ∧
    (monitor_function env0 "f" none (BodyOutcome.exc "ValueError" "boom") stNeg).1
        ≠ BodyOutcome.exc "ValueError" "boom" ∧
    (monitor_function env0 "f" none (BodyOutcome.exc "ValueError" "boom")
        stNeg).2.db.metrics = [] ∧
    ((monitor_function env0 "f" none (BodyOutcome.exc "ValueError" "boom")
        stNeg).2.db.errors.countP (fun r => r.level == "ERROR")) = 1 := by
  refine ⟨?_, ?_, ?_, ?_⟩ <;> decide

/-- C4 (code bug): at the crash state the defaulted end cpu reading (0)
strictly exceeds the cpu threshold (-5), so the claim requires one WARNING
HIGH_CPU_USAGE row for the invocation, but no error row at all is written:
the message f-string raises KeyError before log_error is entered. -/
theorem warning_lost_on_breach_crash :
    thresholdVal stNeg.thresholds "cpu"
        < get_cpu_usage (get_system_metrics (env0.samples (stNeg.sIdx + 1))) ∧
    (monitor_function env0 "f" none BodyOutcome.ok stNeg).2.db.errors = [] ∧
    ((monitor_function env0 "f" none BodyOutcome.ok stNeg).2.db.errors.countP
        (fun r => r.level == "WARNING" && r.error_type == "HIGH_CPU_USAGE"))
      = 0 := by
  refine ⟨?_, ?_, ?_⟩ <;> decide

/-- C3: eviction keeps exactly the maxRows most recently inserted metric rows
(the final suffix of the insertion-ordered table, or the whole table when it
is smaller), it touches no error rows, and running it twice in a row equals
running it once. -/
theorem evict_excess_metrics_spec (db : DBState) (maxRows : ℕ) :
    (cleanup_old_metrics maxRows db).metrics.length
        = min db.metrics.length maxRows ∧
    (∃ dropped, db.metrics = dropped ++ (cleanup_old_metrics maxRows db).metrics ∧
        dropped.length = db.metrics.length - maxRows) ∧
    cleanup_old_metrics maxRows (cleanup_old_metrics maxRows db)
        = cleanup_old_metrics maxRows db ∧
    (cleanup_old_metrics maxRows db).errors = db.errors := by
  refine ⟨?_, ⟨db.metrics.take (db.metrics.length - maxRows), ?_, ?_⟩, ?_, rfl⟩
  · simp only [cleanup_old_metrics, List.length_drop]
    omega
  · exact (List.take_append_drop _ _).symm
  · simp only [List.length_take]
    omega
  · simp only [cleanup_old_metrics, List.length_drop]
    have h : db.metrics.length - (db.metrics.length - maxRows) - maxRows = 0 := by
      omega
    rw [h, List.drop_zero]

/-- C5: the derived-impact computation returns the cpu excess over 20 and the
memory excess over 30, each floored at 0, and the severity is the usage sum
over 20 capped at 10; for non-negative sampled usages both impacts are
non-negative and the severity lies between 0 and 10. -/
theorem performance_impact_formula (m : Option SystemSnapshot)
    (hc : 0 ≤ get_cpu_usage m) (hm : 0 ≤ get_memory_usage m) :
    (calculate_performance_impact m).cpu_impact = max 0 (get_cpu_usage m - 20) ∧
    (calculate_performance_impact m).memory_impact
        = max 0 (get_memory_usage m - 30) ∧
    (calculate_performance_impact m).overall_severity
        = min 10 ((get_cpu_usage m + get_memory_usage m) / 20) ∧
    0 ≤ (calculate_performance_impact m).cpu_impact ∧
    0 ≤ (calculate_performance_impact m).memory_impact ∧
    0 ≤ (calculate_performance_impact m).overall_severity ∧
    (calculate_performance_impact m).overall_severity ≤ 10 := by
  refine ⟨rfl, rfl, rfl, le_max_left _ _, le_max_left _ _, ?_, min_le_left _ _⟩
  exact le_min (by norm_num)
    (div_nonneg (add_nonneg hc hm) (by norm_num))

/-- Concrete witness for C5: a snapshot with cpu 85 and memory 45 satisfies
the non-negativity hypotheses and yields the clamped impact values. -/
theorem performance_impact_formula_witness :
    0 ≤ get_cpu_usage (some ⟨85, 45, 70, 0, 0⟩) ∧
    0 ≤ get_memory_usage (some ⟨85, 45, 70, 0, 0⟩) ∧
    (0 ≤ (calculate_performance_impact (some ⟨85, 45, 70, 0, 0⟩)).cpu_impact ∧
      0 ≤ (calculate_performance_impact (some ⟨85, 45, 70, 0, 0⟩)).overall_severity ∧
      (calculate_performance_impact (some ⟨85, 45, 70, 0, 0⟩)).overall_severity ≤ 10) := by
  have h := performance_impact_formula (some ⟨85, 45, 70, 0, 0⟩)
    (by norm_num [get_cpu_usage]) (by norm_num [get_memory_usage])
  exact ⟨by norm_num [get_cpu_usage], by norm_num [get_memory_usage],
    h.2.2.2.1, h.2.2.2.2.2.1, h.2.2.2.2.2.2⟩

lemma iterInstr_reachable (mx : ℕ) (env : Env) (n : ℕ) (st : MonState) :
    Reachable mx st (iterInstr env n st) := by
  induction n generalizing st with
  | zero => exact Relation.ReflTransGen.refl
  | succ n ih =>
      exact Relation.ReflTransGen.head
        (SysStep.instrument env "f" none BodyOutcome.ok st) (ih _)

lemma iterInstr_metrics_length (n : ℕ) (st : MonState)
    (hthr : st.thresholds = defaultThresholds) :
    (iterInstr env0 n st).db.metrics.length = st.db.metrics.length + n := by
  induction n generalizing st with
  | zero => rfl
  | succ n ih =>
      obtain ⟨hlen, hth⟩ := monitor_env0_step st hthr
      show (iterInstr env0 n (monitor_function env0 "f" none BodyOutcome.ok st).2).db.metrics.length
          = st.db.metrics.length + (n + 1)
      rw [ih _ hth, hlen]
      omega

/-- C6 counterexample: with the default cap of 10000 rows, a reachable state
(10001 instrumented calls, before any background cycle has run) holds 10001
metric rows, because save_metric never evicts and eviction only happens in
the background loop. -/
theorem retention_cap_counterexample :
    ∃ st, Reachable 10000 initState st ∧ 10000 < st.db.metrics.length := by
  refine ⟨iterInstr env0 10001 initState, iterInstr_reachable _ _ _ _, ?_⟩
  rw [iterInstr_metrics_length 10001 initState rfl]
  norm_num [initState]

lemma cleanup_length_le (maxRows : ℕ) (db : DBState) :
    (cleanup_old_metrics maxRows db).metrics.length ≤ maxRows := by
  simp only [cleanup_old_metrics, List.length_drop]
  omega

/-- C6 amended: the metric-row cap holds immediately after every eviction:
any background cycle, and any direct eviction, leaves at most maxRecords
metric rows; between cycles the count can transiently exceed the cap since
inserts never evict. -/
theorem retention_cap_after_eviction (env : Env) (maxRecords : ℕ)
    (st : MonState) (db : DBState) :
    (background_cycle env maxRecords st).db.metrics.length ≤ maxRecords ∧
    (cleanup_old_metrics maxRecords db).metrics.length ≤ maxRecords := by
  refine ⟨?_, cleanup_length_le maxRecords db⟩
  simp only [background_cycle]
  exact cleanup_length_le maxRecords _

/-- C9 (code bug): the sampler itself never propagates a failure -- a
failing psutil read yields the empty dict, and every field read from the
empty dict is 0 -- but a sampling failure can still abort the operation
being monitored: at the reachable negative-cpu-threshold state the
invocation ends in KeyError (raised by the breach message indexing the empty
dict) and persists no metric row, contradicting the claim that a sampling
failure never aborts the monitored operation. -/
theorem sampler_failure_aborts_invocation :
    (∀ e, get_system_metrics (SampleOutcome.fail e) = none) ∧
    get_cpu_usage none = 0 ∧ get_memory_usage none = 0 ∧
    get_disk_usage none = 0 ∧ get_bytes_sent none = 0 ∧
    get_bytes_recv none = 0 ∧
    (monitor_function env0 "f" none BodyOutcome.ok stNeg).1 ≠ BodyOutcome.ok ∧
    (monitor_function env0 "f" none BodyOutcome.ok stNeg).2.db.metrics = [] := by
  refine ⟨fun e => rfl, rfl, rfl, rfl, rfl, rfl, ?_, ?_⟩ <;> decide

lemma get_errors_eq (db : DBState) (limit : ℕ) (level key : Option String) :
    get_errors db limit level key
      = ((optKeyFilter key (optLevelFilter level db.errors)).reverse).take limit := by
  cases level <;> cases key <;> rfl

lemma optLevelFilter_sublist (level : Option String) (rows : List ErrorLog) :
    (optLevelFilter level rows).Sublist rows := by
  cases level with
  | none => exact List.Sublist.refl _
  | some l =>
      simp only [optLevelFilter]
      split_ifs
      · exact List.Sublist.refl _
      · exact List.filter_sublist _

lemma optKeyFilter_sublist (key : Option String) (rows : List ErrorLog) :
    (optKeyFilter key rows).Sublist rows := by
  cases key with
  | none => exact List.Sublist.refl _
  | some k =>
      simp only [optKeyFilter]
      split_ifs
      · exact List.Sublist.refl _
      · exact List.filter_sublist _

lemma mem_optLevelFilter_level {rows : List ErrorLog} {r : ErrorLog}
    {l : String} (hl : l ≠ "") (hr : r ∈ optLevelFilter (some l) rows) :
    r.level = pyUpper l := by
  simp only [optLevelFilter, if_neg hl] at hr
  simpa using (List.mem_filter.mp hr).2

lemma mem_optKeyFilter_key {rows : List ErrorLog} {r : ErrorLog}
    {k : String} (hk : k ≠ "") (hr : r ∈ optKeyFilter (some k) rows) :
    r.api_key = some k := by
  simp only [optKeyFilter, if_neg hk] at hr
  simpa using (List.mem_filter.mp hr).2

/-- C7: every query (with or without filters) returns at most limit rows and
is ordered most-recent-first (a subsequence of the reversed insertion
order); a non-empty level filter restricts the rows to its uppercased level
and a non-empty owner filter to that owner; the level filter is matched
case-insensitively (any casing queries the same rows as its uppercased
form, and the falsy empty string behaves as no filter); and with no owner
filter the result is exactly the limit most recent rows of the filtered
level, respectively of the whole table when no level filter is given. -/
theorem query_errors_spec (db : DBState) (limit : ℕ) (level key : Option String) :
    (get_errors db limit level key).length ≤ limit ∧
    (get_errors db limit level key).Sublist db.errors.reverse ∧
    (∀ l, level = some l → l ≠ "" →
        ∀ r ∈ get_errors db limit level key, r.level = pyUpper l) ∧
    (∀ k, key = some k → k ≠ "" →
        ∀ r ∈ get_errors db limit level key, r.api_key = some k) ∧
    (∀ l u, pyUpper l = u → pyUpper u = u → l ≠ "" → u ≠ "" →
        get_errors db limit (some l) key = get_errors db limit (some u) key) ∧
    (get_errors db limit (some "") key = get_errors db limit none key) ∧
    (∀ l u, pyUpper l = u → l ≠ "" →
        get_errors db limit (some l) none
          = ((db.errors.filter (fun r => r.level == u)).reverse).take limit) ∧
    (get_errors db limit none none = (db.errors.reverse).take limit) := by
  refine ⟨?_, ?_, ?_, ?_, ?_, ?_, ?_, ?_⟩
  · rw [get_errors_eq]
    exact List.length_take_le _ _
  · rw [get_errors_eq]
    exact (List.take_sublist _ _).trans
      (((optKeyFilter_sublist _ _).trans (optLevelFilter_sublist _ _)).reverse)
  · intro l hlv hl r hr
    subst hlv
    rw [get_errors_eq] at hr
    have h1 : r ∈ optKeyFilter key (optLevelFilter (some l) db.errors) :=
      List.mem_reverse.mp (List.mem_of_mem_take hr)
    exact mem_optLevelFilter_level hl ((optKeyFilter_sublist _ _).subset h1)
  · intro k hkv hk r hr
    subst hkv
    rw [get_errors_eq] at hr
    exact mem_optKeyFilter_key hk (List.mem_reverse.mp (List.mem_of_mem_take hr))
  · intro l u h1 hu hl hu2
    have hpu : pyUpper l = pyUpper u := by rw [h1, hu]
    cases key <;> simp [get_errors, if_neg hl, if_neg hu2, hpu]
  · cases key <;> rfl
  · intro l u h1 hl
    subst h1
    simp [get_errors, if_neg hl]
  · rfl

/-- Concrete witness for C7: querying the store of 3 WARNING and 2 ERROR
rows with limit 2 and the lowercase filter warning discharges the inner
hypotheses and yields exactly the two most recent WARNING rows. -/
theorem query_errors_spec_witness :
    (pyUpper "warning" = "WARNING" ∧ "warning" ≠ "") ∧
    ((get_errors db0 2 (some "warning") none).length ≤ 2 ∧
     (∀ r ∈ get_errors db0 2 (some "warning") none, r.level = pyUpper "warning") ∧
     get_errors db0 2 (some "warning") none
        = ((db0.errors.filter (fun r => r.level == "WARNING")).reverse).take 2) := by
  have h := query_errors_spec db0 2 (some "warning") none
  exact ⟨⟨by decide, by decide⟩,
    h.1,
    fun r hr => h.2.2.1 "warning" rfl (by decide) r hr,
    h.2.2.2.2.2.2.1 "warning" "WARNING" (by decide) (by decide)⟩

lemma dictLookup_mem_values {d : List (String × String)} {k v : String}
    (h : dictLookup d k = some v) : v ∈ d.map Prod.snd := by
  induction d with
  | nil => simp [dictLookup] at h
  | cons p rest ih =>
      obtain ⟨k1, v1⟩ := p
      simp only [dictLookup] at h
      split_ifs at h with hk
      · simp only [Option.some.injEq] at h
        simp [h]
      · simp [ih h]

lemma append_ne_empty_left (a b : String) (ha : a ≠ "") : a ++ b ≠ "" := by
  intro h
  apply ha
  have hd : a.data ++ b.data = ([] : List Char) := congrArg String.data h
  have hnil : a.data = [] := (List.append_eq_nil.mp hd).1
  cases a
  simp_all [String.ext_iff]

/-- C8 counterexample: the remediation table of _generate_suggested_fix has
no entry for the standard category DATABASE_ERROR, so that category falls
through to the unknown-category fallback text. -/
theorem diagnostic_catalog_counterexample :
    "DATABASE_ERROR" ∈ standardCategories ∧
    dictLookup fixesList "DATABASE_ERROR" = none ∧
    generate_suggested_fix "DATABASE_ERROR" "query failed"
      = "Review the error details and implement appropriate error handling for \x27DATABASE_ERROR\x27." := by
  refine ⟨by decide, by decide, ?_⟩
  decide

/-- C8 amended: the explanation table has a fixed entry for all eight
standard categories, the remediation table has one for all of them except
DATABASE_ERROR, every unknown category of either lookup gets the
deterministic templated fallback incorporating the category code, and both
lookups always return non-empty text. -/
theorem diagnostic_catalog_spec :
    (∀ c ∈ standardCategories, (dictLookup explanationsList c).isSome) ∧
    (∀ c ∈ standardCategories, c ≠ "DATABASE_ERROR" →
        (dictLookup fixesList c).isSome) ∧
    (∀ ety msg, dictLookup explanationsList ety = none →
        generate_error_explanation ety msg
          = "An error of type \x27" ++ ety ++ "\x27 occurred: " ++ msg) ∧
    (∀ ety msg, dictLookup fixesList ety = none →
        generate_suggested_fix ety msg
          = "Review the error details and implement appropriate error handling for \x27" ++ ety ++ "\x27.") ∧
    (∀ ety msg, generate_error_explanation ety msg ≠ "") ∧
    (∀ ety msg, generate_suggested_fix ety msg ≠ "") := by
  refine ⟨by decide, by decide, ?_, ?_, ?_, ?_⟩
  · intro ety msg h
    simp [generate_error_explanation, h]
  · intro ety msg h
    simp [generate_suggested_fix, h]
  · intro ety msg
    unfold generate_error_explanation
    cases hlook : dictLookup explanationsList ety with
    | some v =>
        have hv : v ∈ explanationsList.map Prod.snd := dictLookup_mem_values hlook
        have hne : ∀ w ∈ explanationsList.map Prod.snd, w ≠ "" := by decide
        simpa using hne v hv
    | none =>
        simpa using append_ne_empty_left _ _
          (append_ne_empty_left _ _ (append_ne_empty_left _ _ (by decide)))
  · intro ety msg
    unfold generate_suggested_fix
    cases hlook : dictLookup fixesList ety with
    | some v =>
        have hv : v ∈ fixesList.map Prod.snd := dictLookup_mem_values hlook
        have hne : ∀ w ∈ fixesList.map Prod.snd, w ≠ "" := by decide
        simpa using hne v hv
    | none =>
        simpa using append_ne_empty_left _ _ (append_ne_empty_left _ _ (by decide))

/-- Concrete witness for C8 amended: a known category has its explanation
entry, and the unknown category FOO_BAR deterministically yields the
non-empty fallback texts incorporating the category code. -/
theorem diagnostic_catalog_spec_witness :
    ("HIGH_CPU_USAGE" ∈ standardCategories ∧
      (dictLookup explanationsList "HIGH_CPU_USAGE").isSome) ∧
    (dictLookup explanationsList "FOO_BAR" = none ∧
      generate_error_explanation "FOO_BAR" "m"
        = "An error of type \x27" ++ "FOO_BAR" ++ "\x27 occurred: " ++ "m") ∧
    (dictLookup fixesList "FOO_BAR" = none ∧
      generate_suggested_fix "FOO_BAR" "m"
        = "Review the error details and implement appropriate error handling for \x27" ++ "FOO_BAR" ++ "\x27.") ∧
    generate_error_explanation "FOO_BAR" "m" ≠ "" ∧
    generate_suggested_fix "FOO_BAR" "m" ≠ "" := by
  have h := diagnostic_catalog_spec
  exact ⟨⟨by decide, h.1 "HIGH_CPU_USAGE" (by decide)⟩,
    ⟨by decide, h.2.2.1 "FOO_BAR" "m" (by decide)⟩,
    ⟨by decide, h.2.2.2.1 "FOO_BAR" "m" (by decide)⟩,
    h.2.2.2.2.1 "FOO_BAR" "m", h.2.2.2.2.2 "FOO_BAR" "m"⟩

lemma dictLookup_dictSet {α : Type} (d : List (String × α)) (k : String)
    (v : α) (k2 : String) :
    dictLookup (dictSet d k v) k2
      = if k = k2 then some v else dictLookup d k2 := by
  induction d with
  | nil => rfl
  | cons p rest ih =>
      obtain ⟨k1, v1⟩ := p
      by_cases h : k1 = k
      · subst h
        have hL : dictSet ((k1, v1) :: rest) k1 v = (k1, v) :: rest := by
          simp [dictSet]
        have hl2 : dictLookup ((k1, v) :: rest) k2
            = if k1 = k2 then some v else dictLookup rest k2 := rfl
        have hr2 : dictLookup ((k1, v1) :: rest) k2
            = if k1 = k2 then some v1 else dictLookup rest k2 := rfl
        rw [hL, hl2, hr2]
        split_ifs <;> simp_all
      · have hL : dictSet ((k1, v1) :: rest) k v
            = (k1, v1) :: dictSet rest k v := by
          simp [dictSet, h]
        have hl2 : dictLookup ((k1, v1) :: dictSet rest k v) k2
            = if k1 = k2 then some v1 else dictLookup (dictSet rest k v) k2 := rfl
        have hr2 : dictLookup ((k1, v1) :: rest) k2
            = if k1 = k2 then some v1 else dictLookup rest k2 := rfl
        rw [hL, hl2, hr2, ih]
        split_ifs <;> simp_all

lemma dictLookup_dictUpdate_notMentioned {α : Type} (t new : List (String × α))
    (k : String) (h : k ∉ new.map Prod.fst) :
    dictLookup (dictUpdate t new) k = dictLookup t k := by
  induction new generalizing t with
  | nil => rfl
  | cons p rest ih =>
      obtain ⟨k1, v1⟩ := p
      simp only [List.map_cons, List.mem_cons] at h
      push_neg at h
      have hstep : dictUpdate t ((k1, v1) :: rest)
          = dictUpdate (dictSet t k1 v1) rest := rfl
      rw [hstep, ih _ h.2, dictLookup_dictSet,
        if_neg (fun hc => h.1 hc.symm)]

lemma dictLookup_dictUpdate_isSome {α : Type} (t new : List (String × α))
    (k : String) (h : (dictLookup t k).isSome) :
    (dictLookup (dictUpdate t new) k).isSome := by
  induction new generalizing t with
  | nil => exact h
  | cons p rest ih =>
      obtain ⟨k1, v1⟩ := p
      have hstep : dictUpdate t ((k1, v1) :: rest)
          = dictUpdate (dictSet t k1 v1) rest := rfl
      rw [hstep]
      apply ih
      rw [dictLookup_dictSet]
      split_ifs <;> simp_all

/-- C10: a partial threshold update changes only the keys present in the
supplied map: every key not mentioned keeps its previous value, and a key
present before the update is still present afterwards. -/
theorem set_thresholds_frame (t new : List (String × ℚ)) (k : String) :
    (k ∉ new.map Prod.fst →
        dictLookup (manage_thresholds_post t new) k = dictLookup t k) ∧
    ((dictLookup t k).isSome →
        (dictLookup (manage_thresholds_post t new) k).isSome) :=
  ⟨fun h => dictLookup_dictUpdate_notMentioned t new k h,
   fun h => dictLookup_dictUpdate_isSome t new k h⟩

/-- Concrete witness for C10: updating only the cpu threshold leaves the
memory threshold value unchanged and keeps the response_time key present. -/
theorem set_thresholds_frame_witness :
    ("memory" ∉ ([("cpu", (90 : ℚ))].map Prod.fst) ∧
      dictLookup (manage_thresholds_post defaultThresholds [("cpu", 90)]) "memory"
        = dictLookup defaultThresholds "memory") ∧
    ((dictLookup defaultThresholds "response_time").isSome ∧
      (dictLookup (manage_thresholds_post defaultThresholds [("cpu", 90)])
          "response_time").isSome) :=
  ⟨⟨by decide,
    (set_thresholds_frame defaultThresholds [("cpu", 90)] "memory").1 (by decide)⟩,
   ⟨by decide,
    (set_thresholds_frame defaultThresholds [("cpu", 90)] "response_time").2 (by decide)⟩⟩

end PerfMon
